import Mathlib

/-!
Shallow embedding of the Flux configuration provider of the
`k8s-configuration` Azure CLI extension
(`src/k8s-configuration/azext_k8s_configuration/providers/FluxConfigurationProvider.py`),
together with the helper modules it imports.

Conventions of the embedding:

* Python `None` and optional values become `Option`; Python truthiness of an
  optional string (`None` and `""` are both falsy) is `truthyS`, of an optional
  boolean `truthyB`.
* Exceptions become an explicit error type `Err` returned through `Except`.
  The constructors record which Python exception class is raised, which
  matters because `except` clauses catch by class:
  `Err.httpError` is `azure.core.exceptions.HttpResponseError`;
  `Err.resourceNotFound` is `azure.cli.core.azclierror.ResourceNotFoundError`
  (a `CLIError`, *not* a subclass of `HttpResponseError`);
  the remaining constructors are the other `azclierror` classes raised by the
  provider, carrying their structured content instead of formatted text
  (the message templates live in the consts module of the repository).
* The generated SDK models (`FluxConfiguration`, `GitRepositoryDefinition`,
  `BucketDefinition`, ...) become plain structures.
* The remote ARM client is not executed: each provider operation returns the
  remote call it would issue (`RemoteCall`) or an error, and takes the
  outcome of the initial `client.get` as an explicit input.
* The repository files `utils.py`, `validators.py`, `consts.py` and `confirm.py`
  are not part of the provided sources; the definitions below that embed them
  are marked `Modelled from the spec:` and follow the natural-language
  specification (section 4.1 of the spec and the constants evident from the
  code of the provider).
-/

/-- Python truthiness of an optional string: `None` and `""` are falsy.
(Stated over the underlying character list so that closed instances reduce
by kernel computation.) -/
def truthyS : Option String → Bool
  | none => false
  | some s => !s.data.isEmpty

/-- Structurally recursive leading-segment test on character lists. -/
def charListStartsWith : List Char → List Char → Bool
  | _, [] => true
  | [], _ :: _ => false
  | c :: cs, p :: ps => c == p && charListStartsWith cs ps

/-- Structurally recursive `String.startsWith`. -/
def strStartsWith (s pre : String) : Bool :=
  charListStartsWith s.data pre.data

/-- Structurally recursive `String.endsWith`. -/
def strEndsWith (s post : String) : Bool :=
  charListStartsWith s.data.reverse post.data.reverse

/-- Structurally recursive `String.toLower`. -/
def strToLower (s : String) : String :=
  String.mk (s.data.map Char.toLower)

/-- Structurally recursive substring search on character lists. -/
def charListContains (needle : List Char) : List Char → Bool
  | [] => needle.isEmpty
  | c :: rest => charListStartsWith (c :: rest) needle || charListContains needle rest

/-- Python truthiness of an optional boolean: `None` and `False` are falsy. -/
def truthyB : Option Bool → Bool
  | none => false
  | some b => b

/-- A single ASCII apostrophe, used inside remote error-message literals. -/
def squo : String := String.singleton (Char.ofNat 39)

/-- `needle in haystack` on Python strings (used by `show` to classify 404s). -/
def containsSub (haystack needle : String) : Bool :=
  charListContains needle.data haystack.data

/-- Which `DeploymentError` message pair from `consts.py` was raised. -/
inductive DeployErr where
  | sccExistsOnCluster
  | fluxExtensionCreating
  | fluxExtensionNotSucceeded
deriving Repr, DecidableEq

/-- Errors raised by the provider, tagged by Python exception class. -/
inductive Err where
  /-- Raised as `azure.core.exceptions.HttpResponseError` (status, message). -/
  | httpError (status : Nat) (msg : String)
  /-- Raised as `azure.cli.core.azclierror.ResourceNotFoundError` — a
      `CLIError`, not an `HttpResponseError`. -/
  | resourceNotFound (msg recommendation : String)
  /-- Raised as `ValidationError` with `CREATE_KUSTOMIZATION_EXIST_ERROR`. -/
  | kustomizationAlreadyExists (kustomizationName configName : String)
  /-- Raised as `ValidationError` with the update/delete/show no-exist text. -/
  | kustomizationNotFound (kustomizationName configName : String)
  /-- Raised as `RequiredArgumentMissingError`, naming the missing params and
      the kind. -/
  | requiredArgumentMissing (missing : List String) (kind : String)
  /-- Raised as `UnrecognizedArgumentError`, naming the offending params and
      the kind. -/
  | unrecognizedArgument (bad : List String) (kind : String)
  /-- Raised as `DeploymentError` by the prerequisite validator. -/
  | deploymentError (which : DeployErr)
  /-- Raised as `InvalidArgumentValueError` by `validate_duration`. -/
  | invalidDuration (flag value : String)
  /-- Raised as `ValidationError` by `validate_git_url`. -/
  | invalidGitUrl (url : String)
  /-- Raised as `ValidationError` by `validate_url_with_params`. -/
  | urlParamsMismatch
  /-- Raised as `MutuallyExclusiveArgumentError` by `validate_repository_ref`. -/
  | repositoryRefConflict
  /-- Raised as `ValidationError` by `validate_known_hosts`. -/
  | invalidKnownHosts
  /-- Raised as `InvalidArgumentValueError` by `validate_private_key`. -/
  | invalidPrivateKey
  /-- Raised as `MutuallyExclusiveArgumentError` by
      `get_data_from_key_or_file`. -/
  | mutuallyExclusiveArgs
  /-- Raised as the `CLIError` of `user_confirmation` on a declined prompt. -/
  | operationCancelled
deriving Repr, DecidableEq

/-! ## Constants (`consts.py`)

`consts.py` is not among the provided sources.  The values below are fixed by
their uses inside the provider (the key sshPrivateKey appears literally at
`FluxConfigurationProvider.py:133`, `"microsoft.flux"` at line 371) and by the
wire values named in the spec (`GitRepository`/`Bucket` source kinds,
`git` kind tag, the `default` kustomization name). -/

def GIT : String := "git"

def GIT_REPOSITORY : String := "GitRepository"

def BUCKET : String := "Bucket"

def DEFAULT_KUSTOMIZATION_NAME : String := "default"

def SSH_PRIVATE_KEY_KEY : String := "sshPrivateKey"

def HTTPS_KEY_KEY : String := "httpsKey"

def BUCKET_SECRET_KEY_KEY : String := "bucketSecretKey"

def FLUX_EXTENSION_TYPE : String := "microsoft.flux"

def CREATING : String := "Creating"

def SUCCEEDED : String := "Succeeded"

def MANAGED_RP_NAMESPACE : String := "Microsoft.ContainerService"

/-- Modelled from the spec: `utils.get_cluster_rp` is not in src/; it maps the
CLI cluster type to its resource-provider namespace. -/
def get_cluster_rp (cluster_type : String) : String :=
  if cluster_type == "connectedClusters" then "Microsoft.Kubernetes"
  else if cluster_type == "managedClusters" then MANAGED_RP_NAMESPACE
  else "Microsoft.ResourceConnector"

/-! ## Durations (`utils.parse_duration`, `validators.validate_duration`)

Modelled from the spec (§4.1): duration flags accept tokens such as `30s`,
`5m`, `1h`; `parse_duration` turns them into seconds and maps null input to
null output, and `validate_duration` surfaces the same grammar check as an
`InvalidArgumentValue` naming the offending flag.  `parse_duration` is made
total by returning `none` on malformed text; every call site in the provider
runs `validate_duration` on the same value first, so the malformed case is
unreachable there. -/

def durUnitSeconds (c : Char) : Option Nat :=
  if c == Char.ofNat 115 then some 1          -- s
  else if c == Char.ofNat 109 then some 60    -- m
  else if c == Char.ofNat 104 then some 3600  -- h
  else none

def parseDurationStr (s : String) : Option Nat :=
  if s.isEmpty then none
  else
    match durUnitSeconds s.back, (s.dropRight 1).toNat? with
    | some factor, some n => some (n * factor)
    | _, _ => none

def parse_duration : Option String → Option Nat
  | none => none
  | some s => if s.isEmpty then none else parseDurationStr s

def validate_duration (flag : String) : Option String → Except Err Unit
  | none => .ok ()
  | some s =>
    if s.isEmpty then .ok ()
    else if (parseDurationStr s).isSome then .ok ()
    else .error (.invalidDuration flag s)

/-! ## Base64 (`utils.to_base64`) -/

/-- Modelled from the spec: `utils.to_base64` is not in src/; the spec says the
https key and the bucket secret key are stored base64-encoded.  Standard
base64 over the UTF-8 bytes of the string. -/
def base64Alphabet : List Char :=
  "ABCDEFGHIJKLMNOPQRSTUVWXYZabcdefghijklmnopqrstuvwxyz0123456789+/".toList

def b64Char (n : Nat) : Char := base64Alphabet.getD n (Char.ofNat 65)

def b64Chunks : List Nat → List Char
  | [] => []
  | [a] => [b64Char (a / 4), b64Char (a % 4 * 16), Char.ofNat 61, Char.ofNat 61]
  | [a, b] => [b64Char (a / 4), b64Char (a % 4 * 16 + b / 16),
               b64Char (b % 16 * 4), Char.ofNat 61]
  | a :: b :: c :: rest =>
      b64Char (a / 4) :: b64Char (a % 4 * 16 + b / 16) ::
      b64Char (b % 16 * 4 + c / 64) :: b64Char (c % 64) :: b64Chunks rest

def to_base64 (s : String) : String :=
  String.mk (b64Chunks (s.toUTF8.toList.map UInt8.toNat))

/-- A loose well-formedness check used to model `validate_known_hosts`:
the data must look like base64 text. -/
def isBase64Text (s : String) : Bool :=
  s.length % 4 == 0 &&
    s.toList.all (fun c => base64Alphabet.contains c || c == Char.ofNat 61)

/-- Modelled from the spec: `validators.validate_known_hosts` is not in src/;
the known-hosts data loaded from value or file is validated for
well-formedness. -/
def validate_known_hosts (data : String) : Except Err Unit :=
  if isBase64Text data then .ok () else .error .invalidKnownHosts

/-- Modelled from the spec: `validators.validate_private_key` is not in src/;
the ssh private key data placed in protected settings is validated as a
well-formed key. -/
def validate_private_key (data : String) : Except Err Unit :=
  if isBase64Text data then .ok () else .error .invalidPrivateKey

/-! ## Inline value / file loading (`utils.get_data_from_key_or_file`)

The file system is an explicit map from path to contents. -/

def stripTrailingNewline (s : String) : String :=
  if strEndsWith s (String.singleton (Char.ofNat 10)) then s.dropRight 1 else s

/-- Modelled from the spec (§4.1): `utils.get_data_from_key_or_file` is not in
src/.  Exactly one of `value`/`filePath` may be set; fails with
`MutuallyExclusiveArguments` if both are set; reads and returns the file
contents when `filePath` is given, the inline value otherwise, null when
neither is given. -/
def get_data_from_key_or_file (fs : String → String)
    (value filePath : Option String) (strip_newline : Bool) :
    Except Err (Option String) :=
  if truthyS value && truthyS filePath then .error .mutuallyExclusiveArgs
  else if truthyS filePath then
    let data := fs (filePath.getD "")
    .ok (some (if strip_newline then stripTrailingNewline data else data))
  else if truthyS value then .ok value
  else .ok none

/-- Modelled from the spec (§4.1): `utils.parse_dependencies` splits a
comma/bracket-delimited list into kustomization-name references. -/
def parse_dependencies (s : String) : List String :=
  let s1 := if strStartsWith s ("[") then s.drop 1 else s
  let s2 := if strEndsWith s1 ("]") then s1.dropRight 1 else s1
  ((s2.splitOn (",")).map String.trim).filter (fun t => !t.isEmpty)

/-! ## SDK models (`vendored_sdks.v2022_01_01_preview.models`) -/

structure RepositoryRefDefinition where
  branch : Option String := none
  tag : Option String := none
  semver : Option String := none
  commit : Option String := none
deriving Repr, DecidableEq

structure GitRepositoryDefinition where
  url : Option String := none
  timeout_in_seconds : Option Nat := none
  sync_interval_in_seconds : Option Nat := none
  repository_ref : Option RepositoryRefDefinition := none
  ssh_known_hosts : Option String := none
  https_user : Option String := none
  local_auth_ref : Option String := none
  https_ca_file : Option String := none
deriving Repr, DecidableEq

/-- Same fields as `GitRepositoryDefinition`, used for the PATCH body. -/
structure GitRepositoryPatchDefinition where
  url : Option String := none
  timeout_in_seconds : Option Nat := none
  sync_interval_in_seconds : Option Nat := none
  repository_ref : Option RepositoryRefDefinition := none
  ssh_known_hosts : Option String := none
  https_user : Option String := none
  local_auth_ref : Option String := none
  https_ca_file : Option String := none
deriving Repr, DecidableEq

structure BucketDefinition where
  url : Option String := none
  bucket_name : Option String := none
  timeout_in_seconds : Option Nat := none
  sync_interval_in_seconds : Option Nat := none
  access_key : Option String := none
  local_auth_ref : Option String := none
  insecure : Option Bool := none
deriving Repr, DecidableEq

structure DependsOnDefinition where
  kustomization_name : String
deriving Repr, DecidableEq

/-- The `KustomizationDefinition` model; the wire shape of
`KustomizationPatchDefinition` has the same fields, so one structure embeds
both. -/
structure KustomizationDefinition where
  path : Option String := none
  depends_on : Option (List DependsOnDefinition) := none
  timeout_in_seconds : Option Nat := none
  sync_interval_in_seconds : Option Nat := none
  retry_interval_in_seconds : Option Nat := none
  prune : Option Bool := none
  force : Option Bool := none
deriving Repr, DecidableEq

/-- The persisted resource.  The kustomization mapping is an association
list keyed by kustomization name. -/
structure FluxConfiguration where
  scope : Option String := none
  namespace_ : Option String := none
  source_kind : Option String := none
  git_repository : Option GitRepositoryDefinition := none
  bucket : Option BucketDefinition := none
  suspend : Option Bool := none
  kustomizations : List (String × KustomizationDefinition) := []
  configuration_protected_settings : Option (List (String × String)) := none
deriving Repr, DecidableEq

/-- The PATCH body; a `none` value under a kustomization key deletes it. -/
structure FluxConfigurationPatch where
  suspend : Option Bool := none
  git_repository : Option GitRepositoryPatchDefinition := none
  bucket : Option BucketDefinition := none
  kustomizations : Option (List (String × Option KustomizationDefinition)) := none
  configuration_protected_settings : Option (List (String × String)) := none
deriving Repr, DecidableEq

/-- The `vendored_sdks.v2021_09_01.models.Extension` model; `identity` holds
the identity type string of the attached `Identity`, if any. -/
structure Extension where
  extension_type : String := ""
  auto_upgrade_minor_version : Option Bool := none
  release_train : Option String := none
  version : Option String := none
  provisioning_state : Option String := none
  identity : Option String := none
  location : Option String := none
deriving Repr, DecidableEq

/-- The remote ARM call a provider operation would issue. -/
inductive RemoteCall where
  | createOrUpdate (body : FluxConfiguration)
  | update (body : FluxConfigurationPatch)
  | delete (force : Bool)
deriving Repr, DecidableEq

/-! ## The flat parameter bag (`**kwargs`)

`create`/`update` receive the CLI parameters as one keyword-argument
dictionary and pass it whole to the source-kind generator factory, whose
named `kind` parameter consumes the `kind` key.  The `kind` field is
therefore `Option (Option String)`: the outer `none` means the key is absent
(the factory default applies), `some v` means the key is present with value
`v` (possibly Python `None`). -/

structure InternalKustomizationDefinition where
  name : String := ""
  path : Option String := none
  depends_on : List String := []
  sync_interval_in_seconds : Option Nat := none
  retry_interval_in_seconds : Option Nat := none
  timeout_in_seconds : Option Nat := none
  prune : Option Bool := none
  force : Option Bool := none
deriving Repr, DecidableEq

/-- Modelled from the spec: the internal list representation of a
kustomization converts to the SDK model by dropping the `name` key and
wrapping the dependency names. -/
def InternalKustomizationDefinition.to_KustomizationDefinition
    (ik : InternalKustomizationDefinition) : KustomizationDefinition :=
  { path := ik.path,
    depends_on := some (ik.depends_on.map DependsOnDefinition.mk),
    timeout_in_seconds := ik.timeout_in_seconds,
    sync_interval_in_seconds := ik.sync_interval_in_seconds,
    retry_interval_in_seconds := ik.retry_interval_in_seconds,
    prune := ik.prune,
    force := ik.force }

structure Kwargs where
  kind : Option (Option String) := none
  url : Option String := none
  bucket_name : Option String := none
  timeout : Option String := none
  sync_interval : Option String := none
  branch : Option String := none
  tag : Option String := none
  semver : Option String := none
  commit : Option String := none
  local_auth_ref : Option String := none
  known_hosts : Option String := none
  known_hosts_file : Option String := none
  ssh_private_key : Option String := none
  ssh_private_key_file : Option String := none
  https_user : Option String := none
  https_key : Option String := none
  https_ca_cert : Option String := none
  https_ca_cert_file : Option String := none
  access_key : Option String := none
  secret_key : Option String := none
  insecure : Option Bool := none
  suspend : Option Bool := none
  scope : Option String := none
  namespace_ : Option String := none
  kustomization : List InternalKustomizationDefinition := []
deriving Repr, DecidableEq

/-- The `(key, truthiness)` view of the keyword arguments handed to a
source-kind generator — everything except `kind`, which the factory
consumes.  Mirrors iteration over `kwargs.items()`. -/
def Kwargs.items (k : Kwargs) : List (String × Bool) :=
  [("url", truthyS k.url),
   ("bucket_name", truthyS k.bucket_name),
   ("timeout", truthyS k.timeout),
   ("sync_interval", truthyS k.sync_interval),
   ("branch", truthyS k.branch),
   ("tag", truthyS k.tag),
   ("semver", truthyS k.semver),
   ("commit", truthyS k.commit),
   ("local_auth_ref", truthyS k.local_auth_ref),
   ("known_hosts", truthyS k.known_hosts),
   ("known_hosts_file", truthyS k.known_hosts_file),
   ("ssh_private_key", truthyS k.ssh_private_key),
   ("ssh_private_key_file", truthyS k.ssh_private_key_file),
   ("https_user", truthyS k.https_user),
   ("https_key", truthyS k.https_key),
   ("https_ca_cert", truthyS k.https_ca_cert),
   ("https_ca_cert_file", truthyS k.https_ca_cert_file),
   ("access_key", truthyS k.access_key),
   ("secret_key", truthyS k.secret_key),
   ("insecure", truthyB k.insecure),
   ("suspend", truthyB k.suspend),
   ("scope", truthyS k.scope),
   ("namespace", truthyS k.namespace_),
   ("kustomization", !k.kustomization.isEmpty)]

/-- Python `any(self.kwargs.values())` over the kwargs of the generator. -/
def anyKwargs (k : Kwargs) : Bool :=
  k.items.any (fun it => it.2)

/-! ## Source-kind generators -/

/-- Modelled from the spec (§4.2/§8): the required-parameter set of the git
kind is `{url}` (`consts.GIT_REPO_REQUIRED_PARAMS`; `consts.py` is not in
src/). -/
def GIT_REPO_REQUIRED_PARAMS : List String := ["url"]

/-- Modelled from the spec (§4.2): parameters only meaningful for the bucket
kind are forbidden for git (`consts.GIT_REPO_INVALID_PARAMS`). -/
def GIT_REPO_INVALID_PARAMS : List String :=
  ["bucket_name", "access_key", "secret_key", "insecure"]

/-- Modelled from the spec (§3/§8): the required-parameter set of the bucket
kind (`consts.BUCKET_REQUIRED_PARAMS`). -/
def BUCKET_REQUIRED_PARAMS : List String := ["url", "bucket_name"]

/-- Modelled from the spec (§4.2): parameters only meaningful for the git
kind are forbidden for bucket (`consts.BUCKET_INVALID_PARAMS`). -/
def BUCKET_INVALID_PARAMS : List String :=
  ["branch", "tag", "semver", "commit", "known_hosts", "known_hosts_file",
   "ssh_private_key", "ssh_private_key_file", "https_user", "https_key",
   "https_ca_cert", "https_ca_cert_file"]

/-- `SourceKindGenerator.validate_required_params`: the required names not
discharged by a truthy keyword argument, in required-set order. -/
def missingRequired (required : List String) (items : List (String × Bool)) :
    List String :=
  required.filter (fun r => !(items.any (fun it => it.1 == r && it.2)))

/-- `SourceKindGenerator.validate_params`: truthy keyword arguments that lie
in the forbidden set, in `kwargs.items()` order. -/
def badParams (invalid : List String) (items : List (String × Bool)) :
    List String :=
  (items.filter (fun it => it.2 && invalid.contains it.1)).map (fun it => it.1)

/-- Modelled from the spec (§4.2): `validators.validate_git_url` accepts a
syntactically valid git remote with an ssh or https scheme. -/
def isSshUrl (u : String) : Bool :=
  strStartsWith u ("ssh://") || strStartsWith u ("git@")

def isHttpsUrl (u : String) : Bool :=
  strStartsWith u ("https://")

def validate_git_url (url : Option String) : Except Err Unit :=
  let u := url.getD ""
  if isSshUrl u || isHttpsUrl u then .ok () else .error (.invalidGitUrl u)

/-- Modelled from the spec (§4.2): `validators.validate_url_with_params` —
ssh credentials require an ssh URL; https credentials require an https URL. -/
def validate_url_with_params (url ssh_private_key ssh_private_key_file
    known_hosts known_hosts_file https_user https_key : Option String) :
    Except Err Unit :=
  let u := url.getD ""
  if (truthyS ssh_private_key || truthyS ssh_private_key_file ||
      truthyS known_hosts || truthyS known_hosts_file) && !isSshUrl u then
    .error .urlParamsMismatch
  else if (truthyS https_user || truthyS https_key) && !isHttpsUrl u then
    .error .urlParamsMismatch
  else .ok ()

/-- Modelled from the spec (§4.2): `validators.validate_repository_ref` — at
most one of branch/tag/semver/commit may be set. -/
def validate_repository_ref (r : Option RepositoryRefDefinition) :
    Except Err Unit :=
  match r with
  | none => .ok ()
  | some rr =>
    if [rr.branch, rr.tag, rr.semver, rr.commit].countP truthyS ≤ 1 then .ok ()
    else .error .repositoryRefConflict

/-- State of a constructed `GitRepositoryGenerator`: the stored kwargs plus
the data computed in `__init__`. -/
structure GitGenState where
  kwargs : Kwargs
  knownhost_data : Option String
  https_ca_data : Option String
  repository_ref : Option RepositoryRefDefinition
deriving Repr, DecidableEq

/-- `GitRepositoryGenerator.__init__`: common required/forbidden validation,
duration pre-validation, known-hosts and CA loading, repository-ref
assembly. -/
def GitRepositoryGenerator.init (fs : String → String) (k : Kwargs) :
    Except Err GitGenState :=
  let missing := missingRequired GIT_REPO_REQUIRED_PARAMS k.items
  if !missing.isEmpty then .error (.requiredArgumentMissing missing GIT)
  else
    let bad := badParams GIT_REPO_INVALID_PARAMS k.items
    if !bad.isEmpty then .error (.unrecognizedArgument bad GIT)
    else match validate_duration ("--timeout") k.timeout with
    | .error e => .error e
    | .ok _ =>
      match validate_duration ("--sync-interval") k.sync_interval with
      | .error e => .error e
      | .ok _ =>
        match get_data_from_key_or_file fs k.known_hosts k.known_hosts_file true with
        | .error e => .error e
        | .ok knownhost_data =>
          match (if truthyS knownhost_data then
                   validate_known_hosts (knownhost_data.getD "")
                 else .ok ()) with
          | .error e => .error e
          | .ok _ =>
            match get_data_from_key_or_file fs k.https_ca_cert k.https_ca_cert_file true with
            | .error e => .error e
            | .ok https_ca_data =>
              .ok { kwargs := k,
                    knownhost_data := knownhost_data,
                    https_ca_data := https_ca_data,
                    repository_ref :=
                      if truthyS k.branch || truthyS k.tag ||
                         truthyS k.semver || truthyS k.commit then
                        some { branch := k.branch, tag := k.tag,
                               semver := k.semver, commit := k.commit }
                      else none }

/-- `GitRepositoryGenerator.generate`: the PUT (create) shape. -/
def GitGenState.generate (st : GitGenState) :
    Except Err (Option GitRepositoryDefinition × Option BucketDefinition) :=
  match validate_git_url st.kwargs.url with
  | .error e => .error e
  | .ok _ =>
    match validate_url_with_params st.kwargs.url st.kwargs.ssh_private_key
        st.kwargs.ssh_private_key_file st.kwargs.known_hosts
        st.kwargs.known_hosts_file st.kwargs.https_user st.kwargs.https_key with
    | .error e => .error e
    | .ok _ =>
      match validate_repository_ref st.repository_ref with
      | .error e => .error e
      | .ok _ =>
        .ok (some { url := st.kwargs.url,
                    timeout_in_seconds := parse_duration st.kwargs.timeout,
                    sync_interval_in_seconds := parse_duration st.kwargs.sync_interval,
                    repository_ref := st.repository_ref,
                    ssh_known_hosts := st.knownhost_data,
                    https_user := st.kwargs.https_user,
                    local_auth_ref := st.kwargs.local_auth_ref,
                    https_ca_file := st.https_ca_data }, none)

/-- `GitRepositoryGenerator.generate_patch`: the PATCH shape; a no-op
`(none, none)` when the caller supplied no truthy keyword argument. -/
def GitGenState.generate_patch (st : GitGenState) :
    Option GitRepositoryPatchDefinition × Option BucketDefinition :=
  if anyKwargs st.kwargs then
    (some { url := st.kwargs.url,
            timeout_in_seconds := parse_duration st.kwargs.timeout,
            sync_interval_in_seconds := parse_duration st.kwargs.sync_interval,
            repository_ref := st.repository_ref,
            ssh_known_hosts := st.knownhost_data,
            https_user := st.kwargs.https_user,
            local_auth_ref := st.kwargs.local_auth_ref,
            https_ca_file := st.https_ca_data }, none)
  else (none, none)

/-- State of a constructed `BucketGenerator`. -/
structure BucketGenState where
  kwargs : Kwargs
deriving Repr, DecidableEq

/-- `BucketGenerator.__init__`. -/
def BucketGenerator.init (k : Kwargs) : Except Err BucketGenState :=
  let missing := missingRequired BUCKET_REQUIRED_PARAMS k.items
  if !missing.isEmpty then .error (.requiredArgumentMissing missing BUCKET)
  else
    let bad := badParams BUCKET_INVALID_PARAMS k.items
    if !bad.isEmpty then .error (.unrecognizedArgument bad BUCKET)
    else match validate_duration ("--timeout") k.timeout with
    | .error e => .error e
    | .ok _ =>
      match validate_duration ("--sync-interval") k.sync_interval with
      | .error e => .error e
      | .ok _ => .ok { kwargs := k }

/-- The `BucketDefinition` built by both `generate` and `generate_patch`. -/
def BucketGenState.bucketDef (st : BucketGenState) : BucketDefinition :=
  { url := st.kwargs.url,
    bucket_name := st.kwargs.bucket_name,
    timeout_in_seconds := parse_duration st.kwargs.timeout,
    sync_interval_in_seconds := parse_duration st.kwargs.sync_interval,
    access_key := st.kwargs.access_key,
    local_auth_ref := st.kwargs.local_auth_ref,
    insecure := st.kwargs.insecure }

/-- `BucketGenerator.generate`: the PUT (create) shape. -/
def BucketGenState.generate (st : BucketGenState) :
    Except Err (Option GitRepositoryDefinition × Option BucketDefinition) :=
  .ok (none, some st.bucketDef)

/-- `BucketGenerator.generate_patch`. -/
def BucketGenState.generate_patch (st : BucketGenState) :
    Option GitRepositoryPatchDefinition × Option BucketDefinition :=
  if anyKwargs st.kwargs then (none, some st.bucketDef)
  else (none, none)

/-- A constructed source-kind generator (the polymorphic dispatch target). -/
inductive Generator where
  | git (st : GitGenState)
  | bucket (st : BucketGenState)
deriving Repr, DecidableEq

/-- The `kind` value the factory receives: a missing `kind` key defaults to
`consts.GIT`; a present key passes its value through (possibly Python
`None`). -/
def factoryKind (k : Kwargs) : Option String :=
  match k.kind with
  | none => some GIT
  | some v => v

/-- The branch condition of the factory, `kind == consts.GIT or
kind == consts.GIT_REPOSITORY`. -/
def factorySelectsGit (k : Kwargs) : Bool :=
  factoryKind k == some GIT || factoryKind k == some GIT_REPOSITORY

/-- `source_kind_generator_factory(kind=consts.GIT, **kwargs)`: a missing
`kind` key defaults to `git`; a present key (even with value `None`) is
compared against `git`/`GitRepository`, anything else selecting the bucket
generator. -/
def source_kind_generator_factory (fs : String → String) (k : Kwargs) :
    Except Err Generator :=
  if factorySelectsGit k then
    match GitRepositoryGenerator.init fs k with
    | .ok st => .ok (.git st)
    | .error e => .error e
  else
    match BucketGenerator.init k with
    | .ok st => .ok (.bucket st)
    | .error e => .error e

def Generator.generate :
    Generator → Except Err (Option GitRepositoryDefinition × Option BucketDefinition)
  | .git st => st.generate
  | .bucket st => st.generate

def Generator.generate_patch :
    Generator → Option GitRepositoryPatchDefinition × Option BucketDefinition
  | .git st => st.generate_patch
  | .bucket st => st.generate_patch

/-- `SourceKindGenerator.get_rp_source_kind`. -/
def Generator.get_rp_source_kind : Generator → String
  | .git _ => GIT_REPOSITORY
  | .bucket _ => BUCKET

/-! ## Provider context

`FluxConfigurationProvider.__init__` binds the resource identity and flags;
the collaborators the provider calls out to (the ARM clients, the file
system, the confirmation prompt, `os.getenv`, the dogfood check) enter the
embedding as explicit fields holding their observed outcomes. -/

structure ProviderCtx where
  resource_group_name : String := "rg"
  cluster_type : String := "connectedClusters"
  cluster_name : String := "cluster"
  name : String := "config"
  no_wait : Bool := false
  yes : Bool := false
  /-- The file system: path to contents. -/
  fs : String → String := fun _ => ""
  /-- Outcome of `self.client.get(...)` for this configuration:
      the configuration, or the raised `HttpResponseError` (status, message). -/
  remoteGet : Except (Nat × String) FluxConfiguration := .error (404, "")
  /-- Number of legacy source-control configurations on the cluster scope. -/
  sccConfigCount : Nat := 0
  /-- Outcome of `self.extension_client.list(...)`. -/
  extensions : List Extension := []
  /-- `utils.is_dogfood_cluster(cmd)`. -/
  isDogfood : Bool := false
  /-- `os.getenv(consts.FLUX_EXTENSION_RELEASETRAIN)`. -/
  envReleaseTrain : Option String := none
  /-- `os.getenv(consts.FLUX_EXTENSION_VERSION)`. -/
  envVersion : Option String := none
  /-- Outcome of `resources.get_by_id(...)`: the cluster location, or the
      raised `HttpResponseError`. -/
  getById : Except (Nat × String) String := .ok "eastus"
  /-- Successive replies of the confirmation prompt (`True` = proceed). -/
  answers : List Bool := []

def ProviderCtx.cluster_rp (ctx : ProviderCtx) : String :=
  get_cluster_rp ctx.cluster_type

/-- Modelled from the spec (§6): `confirm.user_confirmation_factory` prompts
unless pre-confirmed via the yes flag, consuming the next prompt reply and
raising on refusal (an exhausted reply stream refuses).  Returns the
remaining replies. -/
def user_confirmation_factory (yes : Bool) (answers : List Bool) :
    Except Err (List Bool) :=
  if yes then .ok answers
  else match answers with
    | true :: rest => .ok rest
    | _ => .error .operationCancelled

/-- Modelled from the spec (§4.5/§8): `utils.has_prune_enabled` — whether any
kustomization of the configuration has prune set. -/
def has_prune_enabled (c : FluxConfiguration) : Bool :=
  c.kustomizations.any (fun kv => truthyB kv.2.prune)

/-- The recommendation text of the cluster-not-found branch of `show`. -/
def clusterNotFoundRecommendation (ctx : ProviderCtx) : String :=
  "Verify that the --cluster-type is correct and the Resource " ++
    ctx.cluster_rp ++ "/" ++ ctx.cluster_type ++ "/" ++ ctx.cluster_name ++
    " exists"

/-- The resource path used by the configuration-not-found messages. -/
def fluxResourcePath (ctx : ProviderCtx) : String :=
  ctx.cluster_rp ++ "/" ++ ctx.cluster_type ++ "/" ++ ctx.cluster_name ++
    "/Microsoft.KubernetesConfiguration/fluxConfigurations/" ++ ctx.name

def fluxConfigNotFoundMessage (ctx : ProviderCtx) : String :=
  "(FluxConfigurationNotFound) The Resource " ++ fluxResourcePath ctx ++
    " could not be found!"

def fluxConfigNotFoundRecommendation (ctx : ProviderCtx) : String :=
  "Verify that the Resource " ++ fluxResourcePath ctx ++ " exists"

/-- The transport message fragment marking the configuration-not-found 404. -/
def invalidStatusNotFoundFragment : String :=
  "Operation returned an invalid status code " ++ squo ++ "Not Found" ++ squo

/-- `FluxConfigurationProvider.show` (named `showConfig` because `show` is a
Lean keyword): returns the fetched configuration; re-interprets a 404
`HttpResponseError` into a CLI `ResourceNotFoundError` by string-matching the
transport message, distinguishing cluster-not-found from
configuration-not-found; re-raises any other `HttpResponseError` unchanged. -/
def ProviderCtx.showConfig (ctx : ProviderCtx) : Except Err FluxConfiguration :=
  match ctx.remoteGet with
  | .ok config => .ok config
  | .error (status, msg) =>
    if status == 404 then
      if containsSub msg ("(ResourceNotFound)") then
        .error (.resourceNotFound msg (clusterNotFoundRecommendation ctx))
      else if containsSub msg invalidStatusNotFoundFragment then
        .error (.resourceNotFound (fluxConfigNotFoundMessage ctx)
                  (fluxConfigNotFoundRecommendation ctx))
      else
        .error (.resourceNotFound msg (""))
    else .error (.httpError status msg)

/-- `get_protected_settings`: assemble the write-only secret payload; the ssh
private key data is stored verbatim, the https key and the bucket secret key
base64-encoded; an empty dict becomes `None`. -/
def get_protected_settings (fs : String → String)
    (ssh_private_key ssh_private_key_file https_key secret_key : Option String) :
    Except Err (Option (List (String × String))) :=
  match get_data_from_key_or_file fs ssh_private_key ssh_private_key_file false with
  | .error e => .error e
  | .ok ssh_private_key_data =>
    let l1 := if truthyS ssh_private_key_data then
        [(SSH_PRIVATE_KEY_KEY, ssh_private_key_data.getD "")] else []
    let l2 := if truthyS https_key then
        [(HTTPS_KEY_KEY, to_base64 (https_key.getD ""))] else []
    let l3 := if truthyS secret_key then
        [(BUCKET_SECRET_KEY_KEY, to_base64 (secret_key.getD ""))] else []
    let protected_settings := l1 ++ l2 ++ l3
    .ok (if protected_settings.length > 0 then some protected_settings else none)

/-- The `validate_private_key` step of `create`/`update`: runs only when the
protected settings carry an ssh private key entry. -/
def validatePrivateKeyStep (ps : Option (List (String × String))) :
    Except Err Unit :=
  match ps with
  | none => .ok ()
  | some l =>
    match l.lookup SSH_PRIVATE_KEY_KEY with
    | some data => validate_private_key data
    | none => .ok ()

/-- `FluxConfigurationProvider._validate_source_control_config_not_installed`:
any legacy source-control configuration on the cluster is fatal. -/
def ProviderCtx.validate_source_control_config_not_installed
    (ctx : ProviderCtx) : Except Err Unit :=
  if ctx.sccConfigCount == 0 then .ok ()
  else .error (.deploymentError .sccExistsOnCluster)

/-- `FluxConfigurationProvider.__add_identity`: returns the extension
unchanged when the cluster RP is the managed-cluster namespace; otherwise
fetches the cluster resource for its location and attaches a system-assigned
identity. -/
def ProviderCtx.add_identity (ctx : ProviderCtx) (extension_instance : Extension) :
    Except Err Extension :=
  if ctx.cluster_rp == MANAGED_RP_NAMESPACE then .ok extension_instance
  else
    match ctx.getById with
    | .error (status, msg) => .error (.httpError status msg)
    | .ok location =>
      .ok { extension_instance with
              identity := some ("SystemAssigned"),
              location := some (strToLower location) }

/-- `FluxConfigurationProvider._validate_extension_install`: find the Flux
extension case-insensitively; install it when absent (returning the built
extension body), fail when it is `Creating` or in any non-`Succeeded` state,
proceed (returning `none`) when `Succeeded`. -/
def ProviderCtx.validate_extension_install (ctx : ProviderCtx) :
    Except Err (Option Extension) :=
  match ctx.extensions.find? (fun e => strToLower e.extension_type == FLUX_EXTENSION_TYPE) with
  | none =>
    let extension : Extension :=
      { extension_type := "microsoft.flux",
        auto_upgrade_minor_version := some true,
        release_train := ctx.envReleaseTrain,
        version := ctx.envVersion }
    if !ctx.isDogfood then
      match ctx.add_identity extension with
      | .error e => .error e
      | .ok extension => .ok (some extension)
    else .ok (some extension)
  | some flux_extension =>
    if flux_extension.provisioning_state == some CREATING then
      .error (.deploymentError .fluxExtensionCreating)
    else if flux_extension.provisioning_state != some SUCCEEDED then
      .error (.deploymentError .fluxExtensionNotSucceeded)
    else .ok none

/-- `FluxConfigurationProvider.create`. -/
def ProviderCtx.create (ctx : ProviderCtx) (k : Kwargs) :
    Except Err RemoteCall :=
  match source_kind_generator_factory ctx.fs k with
  | .error e => .error e
  | .ok factory =>
    match factory.generate with
    | .error e => .error e
    | .ok (git_repository, bucket) =>
      let kustomizations :=
        if !k.kustomization.isEmpty then
          k.kustomization.map (fun ik => (ik.name, ik.to_KustomizationDefinition))
        else [(DEFAULT_KUSTOMIZATION_NAME, ({} : KustomizationDefinition))]
      match get_protected_settings ctx.fs k.ssh_private_key
          k.ssh_private_key_file k.https_key k.secret_key with
      | .error e => .error e
      | .ok protected_settings =>
        match validatePrivateKeyStep protected_settings with
        | .error e => .error e
        | .ok _ =>
          let flux_configuration : FluxConfiguration :=
            { scope := k.scope,
              namespace_ := k.namespace_,
              source_kind := some factory.get_rp_source_kind,
              git_repository := git_repository,
              bucket := bucket,
              suspend := k.suspend,
              kustomizations := kustomizations,
              configuration_protected_settings := protected_settings }
          match ctx.validate_source_control_config_not_installed with
          | .error e => .error e
          | .ok _ =>
            match ctx.validate_extension_install with
            | .error e => .error e
            | .ok _ => .ok (.createOrUpdate flux_configuration)

/-- `FluxConfigurationProvider.update`.  The `source_kind` of the fetched
configuration is read into a local variable when the caller supplied no kind
— and, exactly as in the source, that local is never used again: the factory
receives the original kwargs. -/
def ProviderCtx.update (ctx : ProviderCtx) (k : Kwargs) :
    Except Err RemoteCall :=
  match ctx.showConfig with
  | .error e => .error e
  | .ok config =>
    let _kind : Option String :=
      if !truthyS k.kind.join then config.source_kind else k.kind.join
    match source_kind_generator_factory ctx.fs k with
    | .error e => .error e
    | .ok factory =>
      let (git_repository, bucket) := factory.generate_patch
      let kustomizations :
          Option (List (String × Option KustomizationDefinition)) :=
        if !k.kustomization.isEmpty then
          some (k.kustomization.map
            (fun ik => (ik.name, some ik.to_KustomizationDefinition)))
        else none
      match get_protected_settings ctx.fs k.ssh_private_key
          k.ssh_private_key_file k.https_key k.secret_key with
      | .error e => .error e
      | .ok protected_settings =>
        match validatePrivateKeyStep protected_settings with
        | .error e => .error e
        | .ok _ =>
          .ok (.update
            { suspend := k.suspend,
              git_repository := git_repository,
              bucket := bucket,
              kustomizations := kustomizations,
              configuration_protected_settings := protected_settings })

/-- The keyword arguments of the kustomization subcommands. -/
structure KustomizationKwargs where
  kustomization_name : String := ""
  dependencies : Option String := none
  timeout : Option String := none
  sync_interval : Option String := none
  retry_interval : Option String := none
  path : Option String := none
  prune : Option Bool := none
  force : Option Bool := none
deriving Repr, DecidableEq

/-- The `KustomizationDefinition` assembled by `create_kustomization` and
`update_kustomization`. -/
def KustomizationKwargs.toDefinition (kk : KustomizationKwargs) :
    KustomizationDefinition :=
  { path := kk.path,
    depends_on :=
      if truthyS kk.dependencies then
        some ((parse_dependencies (kk.dependencies.getD "")).map
          DependsOnDefinition.mk)
      else none,
    timeout_in_seconds := parse_duration kk.timeout,
    sync_interval_in_seconds := parse_duration kk.sync_interval,
    retry_interval_in_seconds := parse_duration kk.retry_interval,
    prune := kk.prune,
    force := kk.force }

/-- `FluxConfigurationProvider.create_kustomization`: duration
pre-validation, existence conflict check against the fetched snapshot, then
a patch containing only the new `{name: definition}` entry. -/
def ProviderCtx.create_kustomization (ctx : ProviderCtx)
    (kk : KustomizationKwargs) : Except Err RemoteCall :=
  match validate_duration ("--timeout") kk.timeout with
  | .error e => .error e
  | .ok _ =>
    match validate_duration ("--sync-interval") kk.sync_interval with
    | .error e => .error e
    | .ok _ =>
      match validate_duration ("--retry-interval") kk.retry_interval with
      | .error e => .error e
      | .ok _ =>
        match ctx.showConfig with
        | .error e => .error e
        | .ok current_config =>
          if (current_config.kustomizations.lookup kk.kustomization_name).isSome then
            .error (.kustomizationAlreadyExists kk.kustomization_name ctx.name)
          else
            .ok (.update
              { kustomizations :=
                  some [(kk.kustomization_name, some kk.toDefinition)] })

/-- `FluxConfigurationProvider.update_kustomization`: like
`create_kustomization`, but the name must exist, and the patch fully
replaces that single key. -/
def ProviderCtx.update_kustomization (ctx : ProviderCtx)
    (kk : KustomizationKwargs) : Except Err RemoteCall :=
  match validate_duration ("--timeout") kk.timeout with
  | .error e => .error e
  | .ok _ =>
    match validate_duration ("--sync-interval") kk.sync_interval with
    | .error e => .error e
    | .ok _ =>
      match validate_duration ("--retry-interval") kk.retry_interval with
      | .error e => .error e
      | .ok _ =>
        match ctx.showConfig with
        | .error e => .error e
        | .ok current_config =>
          if (current_config.kustomizations.lookup kk.kustomization_name).isNone then
            .error (.kustomizationNotFound kk.kustomization_name ctx.name)
          else
            .ok (.update
              { kustomizations :=
                  some [(kk.kustomization_name, some kk.toDefinition)] })

/-- `FluxConfigurationProvider.delete_kustomization`: general confirmation,
existence check, a second confirmation when the kustomization has prune
enabled, then a patch setting `{name: None}`. -/
def ProviderCtx.delete_kustomization (ctx : ProviderCtx)
    (kustomization_name : String) : Except Err RemoteCall :=
  match user_confirmation_factory ctx.yes ctx.answers with
  | .error e => .error e
  | .ok answers =>
    match ctx.showConfig with
    | .error e => .error e
    | .ok current_config =>
      match current_config.kustomizations.lookup kustomization_name with
      | none => .error (.kustomizationNotFound kustomization_name ctx.name)
      | some kust =>
        match (if truthyB kust.prune then
                 user_confirmation_factory ctx.yes answers
               else .ok answers) with
        | .error e => .error e
        | .ok _ =>
          .ok (.update { kustomizations := some [(kustomization_name, none)] })

/-- `FluxConfigurationProvider.delete`: general confirmation, then fetch; an
`HttpResponseError` from the fetch is swallowed (warn and return `None`) —
but the CLI `ResourceNotFoundError` that `show` substitutes for a 404 is not
an `HttpResponseError` and propagates.  A prune-enabled kustomization forces
a second confirmation before the delete call. -/
def ProviderCtx.delete (ctx : ProviderCtx) (force : Bool) :
    Except Err (Option RemoteCall) :=
  match user_confirmation_factory ctx.yes ctx.answers with
  | .error e => .error e
  | .ok answers =>
    match ctx.showConfig with
    | .error (.httpError _ _) => .ok none
    | .error e => .error e
    | .ok config =>
      match (if has_prune_enabled config then
               user_confirmation_factory ctx.yes answers
             else .ok answers) with
      | .error e => .error e
      | .ok _ => .ok (some (.delete force))

/-- Modelled from the spec (§3 and the glossary entry on patch semantics): how the
remote API merges a kustomization patch map into the stored mapping — an
entry present in the patch replaces the corresponding key, a null value
deletes that key. -/
def applyKustomizationsPatch
    (m : List (String × KustomizationDefinition))
    (p : List (String × Option KustomizationDefinition)) :
    List (String × KustomizationDefinition) :=
  p.foldl
    (fun acc entry =>
      match entry.2 with
      | none => acc.filter (fun kv => kv.1 != entry.1)
      | some d => acc.filter (fun kv => kv.1 != entry.1) ++ [(entry.1, d)])
    m

/-! ## Helper lemmas -/

theorem missingRequired_git (k : Kwargs) :
    missingRequired GIT_REPO_REQUIRED_PARAMS k.items =
      if truthyS k.url then [] else ["url"] := by
  cases hu : truthyS k.url <;>
    simp [missingRequired, GIT_REPO_REQUIRED_PARAMS, Kwargs.items, hu]

theorem missingRequired_bucket (k : Kwargs) :
    missingRequired BUCKET_REQUIRED_PARAMS k.items =
      (if truthyS k.url then [] else ["url"]) ++
        (if truthyS k.bucket_name then [] else ["bucket_name"]) := by
  cases hu : truthyS k.url <;> cases hb : truthyS k.bucket_name <;>
    simp [missingRequired, BUCKET_REQUIRED_PARAMS, Kwargs.items, hu, hb]

theorem gitInit_kwargs {fs : String → String} {k : Kwargs} {st : GitGenState}
    (h : GitRepositoryGenerator.init fs k = .ok st) : st.kwargs = k := by
  simp only [GitRepositoryGenerator.init] at h
  iterate 12 (all_goals (try split at h))
  all_goals (first | exact (Except.noConfusion h) | (simp_all; try rw [← h]))

theorem bucketInit_kwargs {k : Kwargs} {st : BucketGenState}
    (h : BucketGenerator.init k = .ok st) : st.kwargs = k := by
  simp only [BucketGenerator.init] at h
  iterate 8 (all_goals (try split at h))
  all_goals (first | exact (Except.noConfusion h) | (simp_all; try rw [← h]))

theorem gitInit_url {fs : String → String} {k : Kwargs} {st : GitGenState}
    (h : GitRepositoryGenerator.init fs k = .ok st) : truthyS k.url = true := by
  simp only [GitRepositoryGenerator.init] at h
  by_cases hu : truthyS k.url = true
  · exact hu
  · simp only [Bool.not_eq_true] at hu
    rw [missingRequired_git] at h
    simp [hu] at h

theorem bucketInit_url {k : Kwargs} {st : BucketGenState}
    (h : BucketGenerator.init k = .ok st) : truthyS k.url = true := by
  simp only [BucketGenerator.init] at h
  by_cases hu : truthyS k.url = true
  · exact hu
  · simp only [Bool.not_eq_true] at hu
    rw [missingRequired_bucket] at h
    simp [hu] at h

theorem url_truthy_anyKwargs {k : Kwargs} (h : truthyS k.url = true) :
    anyKwargs k = true := by
  simp [anyKwargs, Kwargs.items, h]

theorem factory_git {fs : String → String} {k : Kwargs} {st : GitGenState}
    (h : source_kind_generator_factory fs k = .ok (.git st)) :
    GitRepositoryGenerator.init fs k = .ok st := by
  unfold source_kind_generator_factory at h
  split at h
  · split at h
    · simp_all
    · exact (Except.noConfusion h)
  · split at h
    · simp_all
    · exact (Except.noConfusion h)

theorem factory_bucket {fs : String → String} {k : Kwargs} {st : BucketGenState}
    (h : source_kind_generator_factory fs k = .ok (.bucket st)) :
    BucketGenerator.init k = .ok st := by
  unfold source_kind_generator_factory at h
  split at h
  · split at h
    · simp_all
    · exact (Except.noConfusion h)
  · split at h
    · simp_all
    · exact (Except.noConfusion h)

/-- The field-for-field copy of a full git definition into the patch shape. -/
def gitPatchOfDef (d : GitRepositoryDefinition) : GitRepositoryPatchDefinition :=
  { url := d.url,
    timeout_in_seconds := d.timeout_in_seconds,
    sync_interval_in_seconds := d.sync_interval_in_seconds,
    repository_ref := d.repository_ref,
    ssh_known_hosts := d.ssh_known_hosts,
    https_user := d.https_user,
    local_auth_ref := d.local_auth_ref,
    https_ca_file := d.https_ca_file }

/-- An empty file system for concrete instantiations. -/
def fs0 : String → String := fun _ => ""

/-! ## C3 -/

/-- C3: for every parameter bag accepted by a source generator (git or
bucket), `generate_patch()` returns `(null, null)` iff every supplied
parameter value is null/empty; otherwise it returns exactly one populated
patch definition containing only fields of that source kind. -/
theorem c3_generate_patch_noop_iff_all_empty (fs : String → String)
    (k : Kwargs) (gen : Generator)
    (h : source_kind_generator_factory fs k = .ok gen) :
    (gen.generate_patch = (none, none) ↔ anyKwargs k = false) ∧
    (anyKwargs k = true →
      (match gen with
       | .git _ => ∃ g, gen.generate_patch = (some g, none)
       | .bucket _ => ∃ b, gen.generate_patch = (none, some b))) := by
  cases gen with
  | git st =>
    have hk : st.kwargs = k := gitInit_kwargs (factory_git h)
    constructor
    · cases ha : anyKwargs k <;>
        simp [Generator.generate_patch, GitGenState.generate_patch, hk, ha]
    · intro ha
      simp [Generator.generate_patch, GitGenState.generate_patch, hk, ha]
  | bucket st =>
    have hk : st.kwargs = k := bucketInit_kwargs (factory_bucket h)
    constructor
    · cases ha : anyKwargs k <;>
        simp [Generator.generate_patch, BucketGenState.generate_patch, hk, ha]
    · intro ha
      simp [Generator.generate_patch, BucketGenState.generate_patch, hk, ha]

/-- The parameter bag of the C3 witness: a bucket update with two supplied
values. -/
def c3K : Kwargs :=
  { kind := some (some "bucket"), url := some "s3://bucket",
    bucket_name := some "data" }

/-- The generator the factory builds for `c3K`. -/
def c3Gen : Generator := .bucket { kwargs := c3K }

/-- Witness for C3 at the concrete bag `c3K`. -/
theorem c3_generate_patch_noop_iff_all_empty_witness :
    ((c3Gen.generate_patch = (none, none) ↔ anyKwargs c3K = false) ∧
      (anyKwargs c3K = true →
        (match c3Gen with
         | .git _ => ∃ g, c3Gen.generate_patch = (some g, none)
         | .bucket _ => ∃ b, c3Gen.generate_patch = (none, some b)))) :=
  c3_generate_patch_noop_iff_all_empty fs0 c3K c3Gen rfl

/-! ## C7 -/

/-- C7: for every parameter set steering the factory to the git kind with a
missing/empty `url`, generation fails with `RequiredArgumentMissing` naming
exactly the missing required field (`url`) and the kind (`git`), and no
definition is produced. -/
theorem c7_git_missing_url_required (fs : String → String) (k : Kwargs)
    (hsel : factorySelectsGit k = true) (hurl : truthyS k.url = false) :
    source_kind_generator_factory fs k =
      .error (.requiredArgumentMissing ["url"] GIT) := by
  unfold source_kind_generator_factory
  rw [if_pos hsel]
  have hinit : GitRepositoryGenerator.init fs k =
      .error (.requiredArgumentMissing ["url"] GIT) := by
    unfold GitRepositoryGenerator.init
    rw [missingRequired_git, hurl]
    simp
  rw [hinit]

/-- Witness for C7: an empty parameter bag (kind defaults to git). -/
theorem c7_git_missing_url_required_witness :
    source_kind_generator_factory fs0 {} =
      .error (.requiredArgumentMissing ["url"] GIT) :=
  c7_git_missing_url_required fs0 {} rfl rfl

/-! ## C9 -/

/-- C9: for every parameter bag on which `generate()` succeeds,
`generate_patch()` on the same generator state yields a patch whose fields
are field-for-field equal to the definition returned by `generate()` (the
git definition copied into the patch shape, the bucket definition reused
as-is). -/
theorem c9_generate_patch_roundtrip (fs : String → String) (k : Kwargs)
    (gen : Generator)
    (r : Option GitRepositoryDefinition × Option BucketDefinition)
    (hf : source_kind_generator_factory fs k = .ok gen)
    (hg : gen.generate = .ok r) :
    gen.generate_patch = (r.1.map gitPatchOfDef, r.2) := by
  cases gen with
  | git st =>
    have hany : anyKwargs st.kwargs = true := by
      rw [gitInit_kwargs (factory_git hf)]
      exact url_truthy_anyKwargs (gitInit_url (factory_git hf))
    simp only [Generator.generate] at hg
    unfold GitGenState.generate at hg
    split at hg
    case _ e heq => exact (Except.noConfusion hg)
    case _ a heq =>
      split at hg
      case _ e heq2 => exact (Except.noConfusion hg)
      case _ a2 heq2 =>
        split at hg
        case _ e heq3 => exact (Except.noConfusion hg)
        case _ a3 heq3 =>
          simp only [Except.ok.injEq] at hg
          subst hg
          simp [Generator.generate_patch, GitGenState.generate_patch, hany,
            gitPatchOfDef]
  | bucket st =>
    have hany : anyKwargs st.kwargs = true := by
      rw [bucketInit_kwargs (factory_bucket hf)]
      exact url_truthy_anyKwargs (bucketInit_url (factory_bucket hf))
    simp only [Generator.generate] at hg
    unfold BucketGenState.generate at hg
    simp only [Except.ok.injEq] at hg
    subst hg
    simp [Generator.generate_patch, BucketGenState.generate_patch, hany]

/-- The parameter bag of the C9 witness: a git create. -/
def c9K : Kwargs :=
  { url := some "https://example.com/repo.git", branch := some "main" }

/-- The generator state the factory builds for `c9K`. -/
def c9Gen : Generator :=
  .git { kwargs := c9K, knownhost_data := none, https_ca_data := none,
         repository_ref := some { branch := some "main" } }

/-- The definition pair `generate()` returns for `c9K`. -/
def c9R : Option GitRepositoryDefinition × Option BucketDefinition :=
  (some { url := some "https://example.com/repo.git",
          repository_ref := some { branch := some "main" } }, none)

/-- Witness for C9 at the concrete bag `c9K`. -/
theorem c9_generate_patch_roundtrip_witness :
    c9Gen.generate_patch = (c9R.1.map gitPatchOfDef, c9R.2) :=
  c9_generate_patch_roundtrip fs0 c9K c9Gen c9R rfl rfl

/-! ## C1 -/

/-- The remote configuration of the C1 scenario: its source kind is
`Bucket`. -/
def c1Config : FluxConfiguration :=
  { source_kind := some BUCKET,
    bucket := some { url := some "s3://bucket", bucket_name := some "data" },
    kustomizations := [("kust1", {})] }

def c1Ctx : ProviderCtx := { yes := true, remoteGet := .ok c1Config }

/-- The C1 update call: the caller supplies no source kind (and only a new
url), so per the claim the patch should carry a bucket definition. -/
def c1Kwargs : Kwargs := { url := some "s3://other-bucket" }

/-- The patch `update` actually issues in the C1 scenario. -/
def c1Patch : FluxConfigurationPatch :=
  { git_repository := some { url := some "s3://other-bucket" } }

/-- C1 (violated by the code): `update` reads the source kind of the fetched
configuration into a local default — and then never uses it; the factory is
called with the original kwargs, so with no caller-supplied kind it selects
the *git* generator even though the source kind of the fetched configuration is
`Bucket`, and the patch carries a git-repository definition instead of a
bucket definition. -/
theorem c1_update_ignores_fetched_source_kind :
    c1Config.source_kind = some BUCKET ∧
    c1Ctx.update c1Kwargs = .ok (.update c1Patch) ∧
    c1Patch.git_repository.isSome = true ∧
    c1Patch.bucket = none :=
  ⟨rfl, rfl, rfl, rfl⟩

/-! ## C2 -/

/-- A 404 transport message carrying the cluster-not-found marker. -/
def c2Msg : String :=
  "The Resource Microsoft.Kubernetes/connectedClusters/cluster was not found (ResourceNotFound)"

/-- The C2 delete scenario: the configuration fetch fails with a 404
(pre-confirmed delete, so no prompt intervenes). -/
def c2Ctx : ProviderCtx := { yes := true, remoteGet := .error (404, c2Msg) }

/-- A contrasting delete scenario whose fetch fails with a non-404
transport error. -/
def c2bCtx : ProviderCtx :=
  { yes := true, remoteGet := .error (500, "InternalServerError") }

/-- C2 (violated by the code): on a fetch 404, `show` substitutes the CLI
`ResourceNotFoundError` — which is not an `HttpResponseError`, so the
`except HttpResponseError` clause of delete does not catch it and the not-found case
is *fatal* for delete; meanwhile a non-404 transport error (which `show`
re-raises unchanged) is the case delete swallows into a warn-and-no-op. -/
theorem c2_delete_not_found_is_fatal :
    c2Ctx.delete false =
      .error (.resourceNotFound c2Msg (clusterNotFoundRecommendation c2Ctx)) ∧
    c2bCtx.delete false = .ok none :=
  ⟨rfl, rfl⟩

/-! ## C4 -/

theorem lookup_filter_append {α : Type} (m : List (String × α)) (n : String)
    (d : α) :
    ((m.filter (fun kv => kv.1 != n)) ++ [(n, d)]).lookup n = some d := by
  induction m with
  | nil => simp [List.lookup]
  | cons hd tl ih =>
    by_cases h : hd.1 = n
    · simpa [List.filter, h] using ih
    · have hb : (hd.1 != n) = true := by simp [h]
      have hn : (n == hd.1) = false := by
        simp
        exact fun hh => h hh.symm
      simp only [List.filter, hb, List.cons_append, List.lookup, hn]
      exact ih

theorem lookup_applyPatch_singleton (m : List (String × KustomizationDefinition))
    (n : String) (d : KustomizationDefinition) :
    (applyKustomizationsPatch m [(n, some d)]).lookup n = some d := by
  unfold applyKustomizationsPatch
  simp only [List.foldl]
  exact lookup_filter_append m n d

/-- C4: a `create_kustomization` whose name is already a key of the fetched
snapshot fails with the already-exists conflict and returns no patch call;
and sequentially, a first (successful) `create_kustomization` followed by a
second one with the same name — the second fetching a snapshot to which the
remote has applied the first patch — fails the second call the same way. -/
theorem c4_create_kustomization_conflict (ctx ctx2 : ProviderCtx)
    (kk : KustomizationKwargs) (cfg : FluxConfiguration)
    (hd1 : validate_duration ("--timeout") kk.timeout = .ok ())
    (hd2 : validate_duration ("--sync-interval") kk.sync_interval = .ok ())
    (hd3 : validate_duration ("--retry-interval") kk.retry_interval = .ok ())
    (hget : ctx.remoteGet = .ok cfg) :
    ((cfg.kustomizations.lookup kk.kustomization_name).isSome = true →
        ctx.create_kustomization kk =
          .error (.kustomizationAlreadyExists kk.kustomization_name ctx.name)) ∧
    (∀ p, ctx.create_kustomization kk = .ok (.update p) →
        ctx2.remoteGet =
          .ok { cfg with
                kustomizations :=
                  applyKustomizationsPatch cfg.kustomizations
                    (p.kustomizations.getD []) } →
        ctx2.create_kustomization kk =
          .error (.kustomizationAlreadyExists kk.kustomization_name ctx2.name)) := by
  constructor
  · intro hmem
    unfold ProviderCtx.create_kustomization
    rw [hd1, hd2, hd3]
    unfold ProviderCtx.showConfig
    rw [hget]
    simp [hmem]
  · intro p hok hget2
    unfold ProviderCtx.create_kustomization at hok
    rw [hd1, hd2, hd3] at hok
    unfold ProviderCtx.showConfig at hok
    rw [hget] at hok
    iterate 6 (all_goals (try split at hok))
    all_goals (try exact (Except.noConfusion hok))
    simp only [Except.ok.injEq, RemoteCall.update.injEq] at hok
    subst hok
    unfold ProviderCtx.create_kustomization
    rw [hd1, hd2, hd3]
    unfold ProviderCtx.showConfig
    rw [hget2]
    have hl := lookup_applyPatch_singleton cfg.kustomizations
      kk.kustomization_name kk.toDefinition
    simp [hl]

/-- The C4 witness snapshot: `kust1` already exists. -/
def c4Cfg : FluxConfiguration := { kustomizations := [("kust1", {})] }

def c4Ctx : ProviderCtx := { remoteGet := .ok c4Cfg }

def c4Kk : KustomizationKwargs := { kustomization_name := "kust1" }

/-- Witness for C4: creating `kust1` over a snapshot that already holds it. -/
theorem c4_create_kustomization_conflict_witness :
    c4Ctx.create_kustomization c4Kk =
      .error (.kustomizationAlreadyExists ("kust1") ("config")) :=
  (c4_create_kustomization_conflict c4Ctx c4Ctx c4Kk c4Cfg rfl rfl rfl rfl).1 rfl

/-! ## C5 -/

/-- C5: deleting a kustomization with `prune=true` demands a second explicit
confirmation: when the yes flag is off and that confirmation is answered
no, the call fails with the cancellation error (so no patch call is
returned and the remote mapping is untouched); and any run that does return
a patch consumed two affirmative answers. -/
theorem c5_delete_kustomization_prune_confirmation (ctx : ProviderCtx)
    (kname : String) (cfg : FluxConfiguration)
    (kust : KustomizationDefinition)
    (hget : ctx.remoteGet = .ok cfg)
    (hlk : cfg.kustomizations.lookup kname = some kust)
    (hprune : kust.prune = some true)
    (hyes : ctx.yes = false) :
    (∀ a rest, ctx.answers = a :: false :: rest →
        ctx.delete_kustomization kname = .error .operationCancelled) ∧
    (∀ c, ctx.delete_kustomization kname = .ok c →
        ∃ rest, ctx.answers = true :: true :: rest) := by
  constructor
  · intro a rest ha
    cases a <;>
      simp [ProviderCtx.delete_kustomization, user_confirmation_factory, hyes,
        ha, ProviderCtx.showConfig, hget, hlk, truthyB, hprune]
  · intro c hok
    unfold ProviderCtx.delete_kustomization at hok
    cases hans : ctx.answers with
    | nil =>
      rw [hans] at hok
      simp [user_confirmation_factory, hyes] at hok
    | cons a tl =>
      rw [hans] at hok
      cases a with
      | false => simp [user_confirmation_factory, hyes] at hok
      | true =>
        simp only [user_confirmation_factory, hyes, Bool.false_eq_true,
          if_false] at hok
        unfold ProviderCtx.showConfig at hok
        rw [hget] at hok
        simp only [hlk, truthyB, hprune] at hok
        cases tl with
        | nil => simp [user_confirmation_factory, hyes] at hok
        | cons b tl2 =>
          cases b with
          | false => simp [user_confirmation_factory, hyes] at hok
          | true => exact ⟨tl2, rfl⟩

/-- The C5 witness snapshot: `kust1` has prune enabled. -/
def c5Cfg : FluxConfiguration :=
  { kustomizations := [("kust1", { prune := some true })] }

/-- The C5 witness context: general confirmation accepted, prune
confirmation rejected. -/
def c5Ctx : ProviderCtx := { remoteGet := .ok c5Cfg, answers := [true, false] }

/-- Witness for C5: the rejected prune confirmation cancels the delete. -/
theorem c5_delete_kustomization_prune_confirmation_witness :
    c5Ctx.delete_kustomization ("kust1") = .error .operationCancelled :=
  (c5_delete_kustomization_prune_confirmation c5Ctx ("kust1") c5Cfg
    { prune := some true } rfl rfl rfl rfl).1 true [] rfl

/-! ## C6 -/

/-- The C6 counterexample context: an AKS (`managedClusters`) cluster that is
*not* a dogfood environment, with no Flux extension installed. -/
def c6Ctx : ProviderCtx :=
  { cluster_type := "managedClusters", extensions := [], isDogfood := false }

/-- The extension resource the install path builds in the C6 scenario. -/
def c6Ext : Extension :=
  { extension_type := "microsoft.flux", auto_upgrade_minor_version := some true }

/-- Counterexample to C6 as stated: on a non-dogfood managed cluster the
installed extension resource carries *no* identity, because `__add_identity`
returns the extension unchanged whenever the cluster RP is the
managed-cluster namespace — so "identity iff not dogfood" fails. -/
theorem c6_identity_counterexample :
    c6Ctx.isDogfood = false ∧
    c6Ctx.validate_extension_install = .ok (some c6Ext) ∧
    c6Ext.identity = none :=
  ⟨rfl, rfl, rfl⟩

/-- C6 (amended): the extension resource built for installation carries a
system-assigned identity iff the cluster is not a dogfood environment *and*
the cluster RP is not the managed-cluster namespace. -/
theorem c6_identity_amended (ctx : ProviderCtx) (ext : Extension)
    (h : ctx.validate_extension_install = .ok (some ext)) :
    (ext.identity = some ("SystemAssigned")) ↔
      (ctx.isDogfood = false ∧ ctx.cluster_rp ≠ MANAGED_RP_NAMESPACE) := by
  unfold ProviderCtx.validate_extension_install at h
  split at h
  · -- extension not found: install path
    split at h
    · -- not dogfood: identity attachment attempted
      unfold ProviderCtx.add_identity at h
      split at h
      · -- managed-cluster RP: extension returned unchanged, no identity
        simp only [Except.ok.injEq, Option.some.injEq] at h
        subst h
        simp_all
      · -- non-managed RP: fetch the location, attach SystemAssigned
        split at h
        · exact (Except.noConfusion h)
        · simp only [Except.ok.injEq, Option.some.injEq] at h
          subst h
          simp_all
    · -- dogfood: no identity attached
      simp only [Except.ok.injEq, Option.some.injEq] at h
      subst h
      simp_all
  · -- extension found: this path never returns a built extension
    split at h
    · exact (Except.noConfusion h)
    · split at h
      · exact (Except.noConfusion h)
      · simp at h

/-- The C6 amended-claim witness context: a connected (non-managed,
non-dogfood) cluster with no Flux extension. -/
def c6WCtx : ProviderCtx := { extensions := [], getById := .ok "eastus" }

/-- The extension resource built in the `c6WCtx` scenario. -/
def c6WExt : Extension :=
  { extension_type := "microsoft.flux", auto_upgrade_minor_version := some true,
    identity := some "SystemAssigned", location := some "eastus" }

/-- Witness for the amended C6 on a connected cluster. -/
theorem c6_identity_amended_witness :
    (c6WExt.identity = some ("SystemAssigned")) ↔
      (c6WCtx.isDogfood = false ∧ c6WCtx.cluster_rp ≠ MANAGED_RP_NAMESPACE) :=
  c6_identity_amended c6WCtx c6WExt rfl

/-! ## C8 -/

theorem gitGenerate_shape {st : GitGenState}
    {r : Option GitRepositoryDefinition × Option BucketDefinition}
    (h : st.generate = .ok r) : (∃ g, r.1 = some g) ∧ r.2 = none := by
  unfold GitGenState.generate at h
  split at h
  case _ e heq => exact (Except.noConfusion h)
  case _ a heq =>
    split at h
    case _ e heq2 => exact (Except.noConfusion h)
    case _ a2 heq2 =>
      split at h
      case _ e heq3 => exact (Except.noConfusion h)
      case _ a3 heq3 =>
        simp only [Except.ok.injEq] at h
        subst h
        exact ⟨⟨_, rfl⟩, rfl⟩

theorem bucketGenerate_shape {st : BucketGenState}
    {r : Option GitRepositoryDefinition × Option BucketDefinition}
    (h : st.generate = .ok r) : r.1 = none ∧ r.2 = some st.bucketDef := by
  unfold BucketGenState.generate at h
  simp only [Except.ok.injEq] at h
  subst h
  exact ⟨rfl, rfl⟩

/-- C8: every request body assembled by `create` has exactly one of
`git_repository`/`bucket` non-null, and `source_kind` is `GitRepository`
when the git definition is the non-null one and `Bucket` when the bucket
definition is. -/
theorem c8_create_source_kind_consistent (ctx : ProviderCtx) (k : Kwargs)
    (body : FluxConfiguration)
    (h : ctx.create k = .ok (.createOrUpdate body)) :
    (∃ g, body.git_repository = some g ∧ body.bucket = none ∧
        body.source_kind = some GIT_REPOSITORY) ∨
    (∃ b, body.bucket = some b ∧ body.git_repository = none ∧
        body.source_kind = some BUCKET) := by
  unfold ProviderCtx.create at h
  split at h
  · exact (Except.noConfusion h)
  · rename_i factory hfac
    split at h
    · exact (Except.noConfusion h)
    · rename_i gr bu hgen
      iterate 8 (all_goals (try split at h))
      all_goals (try exact (Except.noConfusion h))
      all_goals
        (simp only [Except.ok.injEq, RemoteCall.createOrUpdate.injEq] at h
         subst h
         cases factory with
         | git st =>
           simp only [Generator.generate] at hgen
           obtain ⟨⟨g, hg⟩, hb⟩ := gitGenerate_shape hgen
           exact Or.inl ⟨g, by simpa using hg, by simpa using hb,
             by simp [Generator.get_rp_source_kind]⟩
         | bucket st =>
           simp only [Generator.generate] at hgen
           obtain ⟨hg, hb⟩ := bucketGenerate_shape hgen
           exact Or.inr ⟨st.bucketDef, by simpa using hb, by simpa using hg,
             by simp [Generator.get_rp_source_kind]⟩)

/-- The C8 witness context: prerequisites hold trivially (no legacy config;
the dogfood install path skips identity attachment). -/
def c8Ctx : ProviderCtx := { isDogfood := true }

def c8K : Kwargs :=
  { url := some "https://example.com/repo.git", branch := some "main" }

/-- The create body assembled for `c8K`. -/
def c8Body : FluxConfiguration :=
  { source_kind := some GIT_REPOSITORY,
    git_repository := some { url := some "https://example.com/repo.git",
                             repository_ref := some { branch := some "main" } },
    kustomizations := [(DEFAULT_KUSTOMIZATION_NAME, {})] }

/-- Witness for C8 at the concrete git create `c8K`. -/
theorem c8_create_source_kind_consistent_witness :
    (∃ g, c8Body.git_repository = some g ∧ c8Body.bucket = none ∧
        c8Body.source_kind = some GIT_REPOSITORY) ∨
    (∃ b, c8Body.bucket = some b ∧ c8Body.git_repository = none ∧
        c8Body.source_kind = some BUCKET) :=
  c8_create_source_kind_consistent c8Ctx c8K c8Body rfl

/-! ## C10 -/

theorem ssh_beq_https : (SSH_PRIVATE_KEY_KEY == HTTPS_KEY_KEY) = false := by
  decide

theorem ssh_beq_secret :
    (SSH_PRIVATE_KEY_KEY == BUCKET_SECRET_KEY_KEY) = false := by decide

theorem https_beq_ssh : (HTTPS_KEY_KEY == SSH_PRIVATE_KEY_KEY) = false := by
  decide

theorem https_beq_secret :
    (HTTPS_KEY_KEY == BUCKET_SECRET_KEY_KEY) = false := by decide

theorem secret_beq_ssh :
    (BUCKET_SECRET_KEY_KEY == SSH_PRIVATE_KEY_KEY) = false := by decide

theorem secret_beq_https :
    (BUCKET_SECRET_KEY_KEY == HTTPS_KEY_KEY) = false := by decide

/-- C10: `get_protected_settings` returns null (not an empty mapping) iff no
ssh key data was obtained and the https key and bucket secret key are both
empty; otherwise the mapping holds the ssh private key data verbatim when
present, the https key and the bucket secret key base64-encoded when
present, and nothing else. -/
theorem c10_protected_settings_shape (fs : String → String)
    (ssh_private_key ssh_private_key_file https_key secret_key : Option String)
    (d : Option String) (r : Option (List (String × String)))
    (hd : get_data_from_key_or_file fs ssh_private_key ssh_private_key_file false
            = .ok d)
    (h : get_protected_settings fs ssh_private_key ssh_private_key_file
           https_key secret_key = .ok r) :
    (r = none ↔
      (truthyS d = false ∧ truthyS https_key = false ∧
        truthyS secret_key = false)) ∧
    (∀ l, r = some l →
      l.lookup SSH_PRIVATE_KEY_KEY =
        (if truthyS d then some (d.getD "") else none) ∧
      l.lookup HTTPS_KEY_KEY =
        (if truthyS https_key then some (to_base64 (https_key.getD ""))
         else none) ∧
      l.lookup BUCKET_SECRET_KEY_KEY =
        (if truthyS secret_key then some (to_base64 (secret_key.getD ""))
         else none) ∧
      (∀ key v, l.lookup key = some v →
        key = SSH_PRIVATE_KEY_KEY ∨ key = HTTPS_KEY_KEY ∨
          key = BUCKET_SECRET_KEY_KEY)) := by
  unfold get_protected_settings at h
  rw [hd] at h
  cases hA : truthyS d <;> cases hB : truthyS https_key <;>
    cases hC : truthyS secret_key <;>
    simp only [hA, hB, hC, if_true, if_false, List.nil_append, List.append_nil,
      List.cons_append, Except.ok.injEq] at h <;>
    subst h <;>
    refine ⟨by simp, fun l hl => ?_⟩
  all_goals (try (simp at hl))
  all_goals
    (subst hl
     refine ⟨?_, ?_, ?_, ?_⟩ <;>
       (try (simp [List.lookup, ssh_beq_https, ssh_beq_secret, https_beq_ssh,
          https_beq_secret, secret_beq_ssh, secret_beq_https])) <;>
       (intro key v hkv
        iterate 3 (all_goals (try split at hkv))
        all_goals
          (first
            | exact (Option.noConfusion hkv)
            | (rename_i hkeq
               simp only [beq_iff_eq] at hkeq
               tauto))))

/-- Witness for C10: only an https key supplied. -/
theorem c10_protected_settings_shape_witness :
    ((some [(HTTPS_KEY_KEY, to_base64 ("pw"))] :
        Option (List (String × String))) = none ↔
      (truthyS none = false ∧ truthyS (some "pw") = false ∧
        truthyS none = false)) ∧
    (∀ l, (some [(HTTPS_KEY_KEY, to_base64 ("pw"))] :
        Option (List (String × String))) = some l →
      l.lookup SSH_PRIVATE_KEY_KEY =
        (if truthyS (none : Option String) then
          some ((none : Option String).getD "") else none) ∧
      l.lookup HTTPS_KEY_KEY =
        (if truthyS (some "pw") then some (to_base64 ((some "pw").getD ""))
         else none) ∧
      l.lookup BUCKET_SECRET_KEY_KEY =
        (if truthyS (none : Option String) then
          some (to_base64 ((none : Option String).getD "")) else none) ∧
      (∀ key v, l.lookup key = some v →
        key = SSH_PRIVATE_KEY_KEY ∨ key = HTTPS_KEY_KEY ∨
          key = BUCKET_SECRET_KEY_KEY)) :=
  c10_protected_settings_shape fs0 none none (some "pw") none none
    (some [(HTTPS_KEY_KEY, to_base64 ("pw"))]) rfl rfl
